import Mathlib

/-!
Verification of the deployment-coordinator logic of the
`bentoml-deployment-coordinator` repository, as a shallow embedding in Lean.

The embedding follows the Python sources in `src/app/`:

* `utils.py` — `_distinct` (deduplication of query results by an identity
  attribute);
* `base_deployment.py` — `_is_service_healthy`, `_is_port_in_use`;
* `docker_deployment.py` — `DockerDeployment.deploy_model`,
  `undeploy_model`, `_start_model_server`, `_stop_model_server`;
* `tmux_deployment.py` — `TmuxDeployment.__init__`, `deploy_model`,
  `undeploy_model`, `_start_model_server`, `_stop_model_server`,
  `_create_env_from_model`;
* `main.py` / `models.py` — the `start` endpoint and `DEFAULT_ARGS`.

External effects (the docker daemon, tmux server, sockets, HTTP probes,
subprocesses) are modelled by explicit state lists and oracle parameters;
Python exceptions are modelled with `Except`.
-/

namespace Coordinator

/-! ## `utils._distinct`

Python source (`utils.py`, lines 35-52): iterates over `obj_list`, keeping an
accumulator `distinct_obj_list`; an element is appended only when no already
kept element has an equal value of the identity attribute.  The attribute
access `getattr(obj, attr)` is modelled by a key function. -/

def distinctLoop {α β : Type} [DecidableEq β] (key : α → β) :
    List α → List α → List α
  | acc, [] => acc
  | acc, obj :: rest =>
    if acc.any (fun d => key obj = key d) then distinctLoop key acc rest
    else distinctLoop key (acc ++ [obj]) rest

def distinct {α β : Type} [DecidableEq β] (key : α → β) (l : List α) : List α :=
  distinctLoop key [] l

theorem distinctLoop_shape {α β : Type} [DecidableEq β] (key : α → β) :
    ∀ (l acc : List α), ∃ t, t.Sublist l ∧ distinctLoop key acc l = acc ++ t := by
  intro l
  induction l with
  | nil => intro acc; exact ⟨[], List.nil_sublist _, by simp [distinctLoop]⟩
  | cons x xs ih =>
    intro acc
    by_cases h : acc.any (fun d => key x = key d)
    · obtain ⟨t, ht, he⟩ := ih acc
      exact ⟨t, ht.cons x, by simp [distinctLoop, h, he]⟩
    · obtain ⟨t, ht, he⟩ := ih (acc ++ [x])
      refine ⟨x :: t, ht.cons₂ x, ?_⟩
      simp [distinctLoop, h, he]

theorem distinct_sublist {α β : Type} [DecidableEq β] (key : α → β) (l : List α) :
    (distinct key l).Sublist l := by
  obtain ⟨t, ht, he⟩ := distinctLoop_shape key l []
  simpa [distinct, he] using ht

theorem distinctLoop_keys_nodup {α β : Type} [DecidableEq β] (key : α → β) :
    ∀ (l acc : List α), ((acc.map key).Nodup) →
      ((distinctLoop key acc l).map key).Nodup := by
  intro l
  induction l with
  | nil => intro acc hacc; simpa [distinctLoop] using hacc
  | cons x xs ih =>
    intro acc hacc
    by_cases h : acc.any (fun d => key x = key d)
    · simpa [distinctLoop, h] using ih acc hacc
    · have hnotmem : key x ∉ acc.map key := by
        intro hmem
        obtain ⟨d, hd, hkd⟩ := List.mem_map.mp hmem
        exact h (List.any_eq_true.mpr ⟨d, hd, by simp [hkd]⟩)
      have : ((acc ++ [x]).map key).Nodup := by
        simp only [List.map_append, List.map_cons, List.map_nil]
        simp [List.nodup_append, hacc, hnotmem]
      simpa [distinctLoop, h] using ih (acc ++ [x]) this

theorem distinct_keys_nodup {α β : Type} [DecidableEq β] (key : α → β)
    (l : List α) : ((distinct key l).map key).Nodup :=
  distinctLoop_keys_nodup key l [] (by simp)

theorem distinctLoop_mem_iff {α β : Type} [DecidableEq β] (key : α → β) :
    ∀ (l acc : List α) (y : α),
      y ∈ distinctLoop key acc l ↔
        y ∈ acc ∨ (key y ∉ acc.map key ∧
          l.find? (fun z => decide (key z = key y)) = some y) := by
  intro l
  induction l with
  | nil =>
    intro acc y
    simp [distinctLoop]
  | cons x xs ih =>
    intro acc y
    by_cases h : acc.any (fun d => key x = key d)
    · have hx : key x ∈ acc.map key := by
        obtain ⟨d, hd, hkd⟩ := List.any_eq_true.mp h
        exact List.mem_map.mpr ⟨d, hd, (of_decide_eq_true hkd).symm⟩
      rw [distinctLoop, if_pos h, ih acc y]
      apply or_congr_right
      apply and_congr_right
      intro hky
      have hne : ¬ (key x = key y) := fun he => hky (he ▸ hx)
      rw [List.find?_cons_of_neg _ (by simpa using hne)]
    · have hx : key x ∉ acc.map key := by
        intro hmem
        obtain ⟨d, hd, hkd⟩ := List.mem_map.mp hmem
        exact h (List.any_eq_true.mpr ⟨d, hd, by simp [hkd]⟩)
      rw [distinctLoop, if_neg h, ih (acc ++ [x]) y]
      by_cases hxy : key x = key y
      · constructor
        · rintro (hy | ⟨hky, hfind⟩)
          · rcases List.mem_append.mp hy with hy | hy
            · exact Or.inl hy
            · refine Or.inr ⟨hxy ▸ hx, ?_⟩
              rw [List.find?_cons_of_pos _ (by simpa using hxy)]
              simp at hy
              simp [hy]
          · exfalso
            apply hky
            simp only [List.map_append, List.map_cons, List.map_nil]
            exact List.mem_append.mpr (Or.inr (by simp [hxy]))
        · rintro (hy | ⟨hky, hfind⟩)
          · exact Or.inl (List.mem_append.mpr (Or.inl hy))
          · rw [List.find?_cons_of_pos _ (by simpa using hxy)] at hfind
            have : x = y := by simpa using hfind
            exact Or.inl (List.mem_append.mpr (Or.inr (by simp [this])))
      · constructor
        · rintro (hy | ⟨hky, hfind⟩)
          · rcases List.mem_append.mp hy with hy | hy
            · exact Or.inl hy
            · simp at hy
              exact absurd (hy ▸ rfl) hxy
          · have hky1 : key y ∉ acc.map key := by
              intro hmem
              apply hky
              simp only [List.map_append, List.map_cons, List.map_nil]
              exact List.mem_append.mpr (Or.inl hmem)
            refine Or.inr ⟨hky1, ?_⟩
            rw [List.find?_cons_of_neg _ (by simpa using hxy)]
            exact hfind
        · rintro (hy | ⟨hky, hfind⟩)
          · exact Or.inl (List.mem_append.mpr (Or.inl hy))
          · rw [List.find?_cons_of_neg _ (by simpa using hxy)] at hfind
            refine Or.inr ⟨?_, hfind⟩
            intro hmem
            simp only [List.map_append, List.map_cons, List.map_nil] at hmem
            rcases List.mem_append.mp hmem with hmem | hmem
            · exact hky hmem
            · simp at hmem
              exact hxy hmem.symm

theorem distinct_mem_iff {α β : Type} [DecidableEq β] (key : α → β)
    (l : List α) (y : α) :
    y ∈ distinct key l ↔ l.find? (fun z => decide (key z = key y)) = some y := by
  rw [distinct, distinctLoop_mem_iff key l [] y]
  simp

theorem distinct_key_surj {α β : Type} [DecidableEq β] (key : α → β)
    (l : List α) (x : α) (hx : x ∈ l) :
    ∃ y ∈ distinct key l, key y = key x := by
  have hsome : (l.find? (fun z => decide (key z = key x))).isSome := by
    apply List.find?_isSome.mpr
    exact ⟨x, hx, by simp⟩
  obtain ⟨y, hy⟩ := Option.isSome_iff_exists.mp hsome
  have hky : key y = key x := by
    have := List.find?_some hy
    simpa using this
  refine ⟨y, ?_, hky⟩
  rw [distinct_mem_iff]
  have : (fun z => decide (key z = key y)) = (fun z => decide (key z = key x)) := by
    funext z
    simp [hky]
  rw [this]
  exact hy

theorem distinct_of_keys_nodup {α β : Type} [DecidableEq β] (key : α → β) :
    ∀ (l : List α), ((l.map key).Nodup) → distinct key l = l := by
  have haux : ∀ (l acc : List α),
      ((acc.map key ++ l.map key).Nodup) → distinctLoop key acc l = acc ++ l := by
    intro l
    induction l with
    | nil => intro acc _; simp [distinctLoop]
    | cons x xs ih =>
      intro acc hnd
      have hx : key x ∉ acc.map key := by
        intro hmem
        rw [List.nodup_append] at hnd
        exact hnd.2.2 hmem (by simp)
      have h : ¬ acc.any (fun d => key x = key d) := by
        intro h
        obtain ⟨d, hd, hkd⟩ := List.any_eq_true.mp h
        exact hx (List.mem_map.mpr ⟨d, hd, (of_decide_eq_true hkd).symm⟩)
      rw [distinctLoop, if_neg h, ih (acc ++ [x]) (by simpa using hnd)]
      simp
  intro l hl
  have := haux l [] (by simpa using hl)
  simpa [distinct] using this

/-! ## Identity and naming

Source (`tmux_deployment.py`, `TmuxDeployment.__init__`, lines 34-43):
`name_clean = re.sub(r'\W+', '', self.name).lower()` and likewise for the
stage; `random_string = ''.join(random.choices(string.ascii_lowercase +
string.digits, k=8))`; the session name is
`f'bentoml_{name_clean}_{stage_clean}_{random_string}'`.  Python's `\W`
matches a non-word character (word = alphanumeric or underscore), and
`str.lower()` lowercases each character. -/

def pyIsWordChar (c : Char) : Bool := c.isAlphanum || c = '_'

def cleanLower (s : String) : String :=
  ((s.data.filter pyIsWordChar).map Char.toLower).asString

def suffixAlphabet : List Char := "abcdefghijklmnopqrstuvwxyz0123456789".data

def randomSuffix (rng : Nat → Nat) : String :=
  ((List.range 8).map (fun i => suffixAlphabet.getD (rng i % 36) 'a')).asString

def tmuxSessionName (name stage randomString : String) : String :=
  "bentoml_" ++ cleanLower name ++ "_" ++ cleanLower stage ++ "_" ++ randomString

/-- Modelled from the spec: the base-class identity attributes `name_clean`,
`stage_clean`, `suffix`, `prefix` and `deployment_name` are assigned in a
revision of `Deployment.__init__` that is not present under `src/`
(`docker_deployment.py`, `airflow_deployment.py`, `prometheus_deployment.py`
and `main.py` read them and pass a `suffix=` keyword the `base_deployment.py`
in `src/` does not accept).  Spec §3/§4.1: the deployment name is
`{prefix}_{name_clean}_{stage_clean}_{suffix}` with a fixed prefix, and when
no suffix is supplied a fresh 8-character lowercase-alphanumeric suffix is
generated. -/
def baseDeploymentName (pfx name stage : String) (suffixOpt : Option String)
    (rng : Nat → Nat) : String :=
  pfx ++ "_" ++ cleanLower name ++ "_" ++ cleanLower stage ++ "_"
    ++ suffixOpt.getD (randomSuffix rng)

/-- The construction as §3 of the spec words it, used as the comparison side
of the refinement: a prefix, the cleaned name, the cleaned stage and the
suffix joined by underscores. -/
def specDeploymentName (pfx nameClean stageClean sfx : String) : String :=
  pfx ++ "_" ++ nameClean ++ "_" ++ stageClean ++ "_" ++ sfx

/-- The cleaning as §3 of the spec words it: all non-word characters
stripped, then lowercased. -/
def specCleanName (raw : String) : String :=
  ((raw.data.filter pyIsWordChar).map Char.toLower).asString

/-! ## `Deployment._is_service_healthy` (`base_deployment.py`, lines 125-153)

The prober mounts an `HTTPAdapter` whose urllib3 `Retry(total=retries)`
object retries the single `session.get` on connection errors, so the network
is modelled as a function from the attempt index to an outcome: either a
response with a status code arrives or the attempt fails with a connection
error.  When the retry budget is exhausted the adapter raises; the `except`
block swallows every exception. -/

inductive ProbeOutcome where
  | resp (code : Nat)
  | connErr
deriving Repr, DecidableEq

/-- Embeds the mounted `session.get`: attempt after attempt, a connection
error consumes one unit of retry budget; a response ends the call; an empty
budget turns the next connection error into a raised exception (`.error`). -/
def sessionGetRetries (attempt : Nat → ProbeOutcome) :
    Nat → Nat → Except Unit Nat
  | 0, i =>
    match attempt i with
    | .resp c => .ok c
    | .connErr => .error ()
  | b + 1, i =>
    match attempt i with
    | .resp c => .ok c
    | .connErr => sessionGetRetries attempt b (i + 1)

def is_service_healthy (attempt : Nat → ProbeOutcome) (retries : Nat) : Bool :=
  match sessionGetRetries attempt retries 0 with
  | .ok code => code == 200
  | .error _ => false

/-! ## `Deployment._is_port_in_use` (`base_deployment.py`, lines 155-170)

`for _ in range(retry): … if connect_ex != 0: return False; sleep(1)` and a
final `return True`.  The socket is modelled as a function from the attempt
index to whether the connect succeeded (port bound). -/

def is_port_in_use (bound : Nat → Bool) : Nat → Nat → Bool
  | 0, _ => true
  | r + 1, i => if bound i then is_port_in_use bound r (i + 1) else false

/-- Counts the connection attempts `_is_port_in_use` performs (one per loop
iteration until the early `return False` or the loop ends). -/
def port_check_attempts (bound : Nat → Bool) : Nat → Nat → Nat
  | 0, _ => 0
  | r + 1, i => if bound i then 1 + port_check_attempts bound r (i + 1) else 1

/-! ## `TmuxDeployment._create_env_from_model` (`tmux_deployment.py`, lines 304-337)

After `subprocess.run(…, timeout=240)` the source checks
`if response.returncode < 0:` and only then raises the 500
`HTTPException`; every other exit status falls through to the success path.
The docstring of the method states it raises if the conda environment could
not be created. -/

structure HTTPError where
  status_code : Nat
  detail : String
deriving Repr, DecidableEq

def createEnvCheck (returncode : Int) : Except HTTPError Unit :=
  if returncode < 0 then
    .error ⟨500, "Could not create conda env."⟩
  else
    .ok ()

/-! ## `main.start` and `models.DEFAULT_ARGS` (`main.py` lines 79-85, `models.py` line 39)

`DEFAULT_ARGS = {'port': 5000}` is a module-level dict; the handler executes
`DEFAULT_ARGS.update(model_content.args or dict())` and passes the same
object to `deploy_model`.  Dicts are modelled as association lists whose
lookup prefers the most recent update. -/

abbrev ArgsDict := List (String × Nat)

def DEFAULT_ARGS_initial : ArgsDict := [("port", 5000)]

/-- Models `d.update(u)`: keys of `u` take their new values, all other keys
keep the value they had in `d`. -/
def dictUpdate (d u : ArgsDict) : ArgsDict :=
  u ++ d.filter (fun p => (u.lookup p.1).isNone)

/-- The argument handling of the `start` endpoint: the module-level dict is
updated in place with the request's args (or the empty dict) and the mutated
dict itself is what `deploy_model` receives; the returned dict is also the
module state the next request starts from. -/
def startHandlerArgs (state : ArgsDict) (reqArgs : Option ArgsDict) : ArgsDict :=
  dictUpdate state (reqArgs.getD [])

theorem lookup_append (l1 l2 : ArgsDict) (k : String) :
    (l1 ++ l2).lookup k = ((l1.lookup k).orElse (fun _ => l2.lookup k)) := by
  induction l1 with
  | nil => simp [List.lookup]
  | cons p rest ih =>
    by_cases hk : k = p.1
    · simp [List.lookup, hk]
    · have hk1 : (k == p.1) = false := by simpa using hk
      simp [List.lookup, hk1, ih]

theorem lookup_dictUpdate (d u : ArgsDict) (k : String) :
    (dictUpdate d u).lookup k =
      ((u.lookup k).orElse
        (fun _ => (d.filter (fun p => (u.lookup p.1).isNone)).lookup k)) := by
  rw [dictUpdate, lookup_append]

theorem lookup_filter_of_lookup_none (d u : ArgsDict) (k : String)
    (h : u.lookup k = none) :
    (d.filter (fun p => (u.lookup p.1).isNone)).lookup k = d.lookup k := by
  induction d with
  | nil => simp
  | cons p rest ih =>
    by_cases hu : (u.lookup p.1).isNone
    · by_cases hk : k = p.1
      · subst hk
        simp [List.filter_cons, hu, List.lookup]
      · have hk1 : (k == p.1) = false := by simpa using hk
        simp [List.filter_cons, hu, List.lookup, hk1, ih]
    · have hk : k ≠ p.1 := by
        intro he
        subst he
        simp [h] at hu
      have hk1 : (k == p.1) = false := by simpa using hk
      simp only [List.filter_cons]
      rw [if_neg (by simpa using hu)]
      rw [ih]
      simp [List.lookup, hk1]

/-! ## The docker backend (`docker_deployment.py`)

The docker daemon's state is a list of containers; each carries the identity
labels `DockerDeployment._start_model_server` sets (`name`, `version`,
`stage`, the port from the serialized `args`), the container name (the
deployment name), the id, the running status and the log buffer.  Images,
shared volumes and the log side effects that no claim observes are omitted. -/

structure DockerContainer where
  cid : Nat
  cname : String
  lname : String
  lversion : String
  lstage : String
  largsPort : Nat
  running : Bool
  logs : String
deriving Repr, DecidableEq

/-- The identity attributes of a `DockerDeployment` instance.  `name`,
`version` and `stage` come from `Deployment.__init__` in
`base_deployment.py`; `deployment_name` and `suffix` are the base-class
identity attributes (see `baseDeploymentName`). -/
structure DSelf where
  name : String
  version : String
  stage : String
  deployment_name : String
  suffix : String
deriving Repr, DecidableEq

/-- `docker_client.containers.list(all=True, filters={'label': [name=…, version=…]})`. -/
def containersByVersion (st : List DockerContainer) (name version : String) :
    List DockerContainer :=
  st.filter (fun c => c.lname = name ∧ c.lversion = version)

/-- `docker_client.containers.list(all=True, filters={'label': [name=…, stage=…]})`. -/
def containersByStage (st : List DockerContainer) (name stage : String) :
    List DockerContainer :=
  st.filter (fun c => c.lname = name ∧ c.lstage = stage)

def stopCid (st : List DockerContainer) (i : Nat) : List DockerContainer :=
  st.map (fun c => if c.cid = i then { c with running := false } else c)

def startCid (st : List DockerContainer) (i : Nat) : List DockerContainer :=
  st.map (fun c => if c.cid = i then { c with running := true } else c)

def removeCid (st : List DockerContainer) (i : Nat) : List DockerContainer :=
  st.filter (fun c => c.cid ≠ i)

/-- The `for container in _distinct(containers, 'id'):` loop of
`DockerDeployment._stop_model_server`: skip the excluded name; stop the
container if it is running (appending it to `stopped_containers`); when
`remove_container` is set, remove it (appending it to `removed_containers`).
Returns the daemon state after the loop together with the two lists. -/
def dockerStopIter (removeContainer : Bool) (exclude : String) :
    List DockerContainer → List DockerContainer →
      List DockerContainer × List DockerContainer × List DockerContainer
  | [], st => (st, [], [])
  | c :: rest, st =>
    if c.cname = exclude then dockerStopIter removeContainer exclude rest st
    else
      let st1 := if c.running then stopCid st c.cid else st
      let st2 := if removeContainer then removeCid st1 c.cid else st1
      let res := dockerStopIter removeContainer exclude rest st2
      (res.1, (if c.running then c :: res.2.1 else res.2.1),
        (if removeContainer then c :: res.2.2 else res.2.2))

/-- The containers gathered by `DockerDeployment._stop_model_server` before
deduplication: the by-version query result concatenated with the by-stage
query result, guarded by membership of `'version'`/`'stage'` in `find_by`. -/
def dockerStopQuery (st : List DockerContainer) (s : DSelf)
    (findVersion findStage : Bool) : List DockerContainer :=
  (if findVersion then containersByVersion st s.name s.version else [])
    ++ (if findStage then containersByStage st s.name s.stage else [])

/-- `DockerDeployment._stop_model_server` (lines 259-317): gather, dedup by
`'id'`, then run the stop/remove loop. -/
def dockerStopModelServer (st : List DockerContainer) (s : DSelf)
    (findVersion findStage removeContainer : Bool) (exclude : String) :
    List DockerContainer × List DockerContainer × List DockerContainer :=
  dockerStopIter removeContainer exclude
    (distinct (fun c => c.cid) (dockerStopQuery st s findVersion findStage)) st

/-- The `existing_containers` branch of
`DockerDeployment._start_model_server` (lines 162-173): call `.start()` on
every container in the list (the subsequent per-container health probes only
log). -/
def dockerRestartExisting (st : List DockerContainer)
    (cs : List DockerContainer) : List DockerContainer :=
  cs.foldl (fun acc c => startCid acc c.cid) st

def newContainer (s : DSelf) (port newCid : Nat) (logs : String) :
    DockerContainer :=
  { cid := newCid, cname := s.deployment_name, lname := s.name,
    lversion := s.version, lstage := s.stage, largsPort := port,
    running := true, logs := logs }

/-- The fresh-start branch of `DockerDeployment._start_model_server` (lines
175-257): build the image, run the container (labelled with name, version,
stage, args) and probe `_is_service_healthy(args['port'], 20)`; when the
probe fails, stop and remove the just-started container and raise the 500
`HTTPException` whose detail carries the captured container logs.  Build and
run are assumed to succeed (their failure paths are not observed by any
claim); the probe outcome and the captured logs are oracle parameters. -/
def dockerStartNew (st : List DockerContainer) (s : DSelf) (port newCid : Nat)
    (healthOk : Bool) (logs : String) :
    Except HTTPError Unit × List DockerContainer :=
  let st1 := newContainer s port newCid logs :: st
  if healthOk then (.ok (), st1)
  else (.error ⟨500, "Could not deploy service.\n" ++ logs⟩, removeCid st1 newCid)

structure DeploySuccess where
  deployment_name : String
  suffix : String
  removed_containers : List DockerContainer
deriving Repr, DecidableEq

/-- `DockerDeployment.deploy_model` (lines 41-72): stop (without removing)
the containers found by version and by stage; if the port is in use, restart
the just-stopped containers and raise the 502; otherwise start the new
container and, on success, stop-and-remove everything found by version and
by stage except the new container itself.  There is no `try`/`except` around
the fresh start: its `HTTPException` propagates without any restart of the
stopped containers. -/
def dockerDeploy (st : List DockerContainer) (s : DSelf) (port : Nat)
    (portInUse : Bool) (newCid : Nat) (healthOk : Bool) (logs : String) :
    Except HTTPError DeploySuccess × List DockerContainer :=
  let r1 := dockerStopModelServer st s true true false ""
  let st1 := r1.1
  let stopped := r1.2.1
  if portInUse then
    (.error ⟨502, "Port " ++ toString port ++ " is already in use."⟩,
      dockerRestartExisting st1 stopped)
  else
    match dockerStartNew st1 s port newCid healthOk logs with
    | (.error e, st2) => (.error e, st2)
    | (.ok _, st2) =>
      let r2 := dockerStopModelServer st2 s true true true s.deployment_name
      (.ok ⟨s.deployment_name, s.suffix, r2.2.2⟩, r2.1)

/-- `DockerDeployment.undeploy_model` (lines 74-92): stop-and-remove the
containers found by version only; answer 404 when `stopped_containers` (the
containers that were running and got stopped) is empty. -/
def dockerUndeploy (st : List DockerContainer) (s : DSelf) :
    Except HTTPError (List DockerContainer) × List DockerContainer :=
  let r := dockerStopModelServer st s true false true ""
  if r.2.1.length > 0 then (.ok r.2.1, r.1)
  else
    (.error ⟨404, "Model could not be undeployed: " ++ s.name ++ ", " ++ s.version⟩,
      r.1)

/-! ## The tmux backend (`tmux_deployment.py`)

The tmux server's state is a list of sessions; each carries the session name
and the session environment variables: `_start_model_server` sets
`model_name`, `model_version`, `model_stage`, `model_conda_prefix` and
`args` (the port is kept from the serialized `args`), and it sets **no**
`model_port` or `model_workers` variable — yet `get_running_models` requires
those two to be present and truthy.  They are therefore modelled as
`Option String` values (`none` = variable not set, which is the case for
every session this revision's `_start_model_server` creates); the
string-valued variables that every creator path sets are plain strings,
with the empty string standing for a falsy value.  The session also records
whether the serving process launched in the pane is still running (`C-c`
stops the process, `kill_session` removes the session).  The conda
environments on disk are not observed by any claim and are omitted. -/

structure TSession where
  sname : String
  mname : String
  mversion : String
  mstage : String
  mport : Option String
  mworkers : Option String
  condaPrefix : String
  argsPort : Nat
  serving : Bool
deriving Repr, DecidableEq

/-- Identity attributes of a `TmuxDeployment` instance (`__init__`,
lines 26-43). -/
structure TSelf where
  name : String
  version : String
  stage : String
  session_name : String
  session_name_general : String
  condaPrefix : String
deriving Repr, DecidableEq

/-- The `dict` literal `_stop_model_server` appends to `stopped_sessions`
for every session it stops (lines 258-265); `'used_args'` is represented by
the port it serializes. -/
structure StoppedRec where
  used_model : String
  used_version : String
  used_conda_prefix : String
  used_args_port : Nat
deriving Repr, DecidableEq

def recordOf (x : TSession) : StoppedRec :=
  { used_model := x.mname, used_version := x.mversion,
    used_conda_prefix := x.condaPrefix, used_args_port := x.argsPort }

/-- Python's `str.startswith`, computed on the character data. -/
def pyStartsWith (s pre : String) : Bool := pre.data.isPrefixOf s.data

/-- Truthiness of a `session.show_environment(…)` result in Python: `None`
(the variable is not set) and the empty string are falsy, every other
string is truthy. -/
def pyTruthy : Option String → Bool
  | none => false
  | some s => !(s == "")

/-- The existence gate of `get_running_models` (lines 143-144):
`if not all(session.show_environment(f'model_{label}') for label in
['name', 'version', 'stage', 'port', 'workers']): continue`.  Note that
`_start_model_server` never sets `model_port` or `model_workers` (its
docstring still documents `port`/`workers` parameters its signature no
longer has), so a session created by this revision fails this gate. -/
def sessionLabelsSet (x : TSession) : Bool :=
  pyTruthy (some x.mname) && pyTruthy (some x.mversion)
    && pyTruthy (some x.mstage) && pyTruthy x.mport && pyTruthy x.mworkers

/-- `get_running_models(name=…, version=…, return_only_sessions=True)`:
sessions whose name starts with `'bentoml_'`, whose `model_name` /
`model_version` environment variables match, and that pass the
five-variable existence gate. -/
def sessionsByNameVersion (st : List TSession) (name version : String) :
    List TSession :=
  st.filter (fun x => pyStartsWith x.sname "bentoml_" ∧ x.mname = name
    ∧ x.mversion = version ∧ sessionLabelsSet x = true)

/-- `get_running_models(session_name_start=…, return_only_sessions=True)`:
sessions whose name starts with `'bentoml_'` and with the given string,
and that pass the five-variable existence gate. -/
def sessionsByNameStart (st : List TSession) (startStr : String) :
    List TSession :=
  st.filter (fun x => pyStartsWith x.sname "bentoml_"
    ∧ pyStartsWith x.sname startStr ∧ sessionLabelsSet x = true)

def sendCtrlC (st : List TSession) (n : String) : List TSession :=
  st.map (fun x => if x.sname = n then { x with serving := false } else x)

def killSessionNamed (st : List TSession) (n : String) : List TSession :=
  st.filter (fun x => x.sname ≠ n)

/-- The `for session in _distinct(sessions, 'name'):` loop of
`TmuxDeployment._stop_model_server` (lines 253-269): skip the excluded name,
send `C-c` to the pane, append the stopped-session `dict`, and kill the
session when `kill_session` is set. -/
def tmuxStopIter (kill : Bool) (exclude : String) :
    List TSession → List TSession → List TSession × List StoppedRec
  | [], st => (st, [])
  | x :: rest, st =>
    if x.sname = exclude then tmuxStopIter kill exclude rest st
    else
      let st1 := sendCtrlC st x.sname
      let st2 := if kill then killSessionNamed st1 x.sname else st1
      let res := tmuxStopIter kill exclude rest st2
      (res.1, recordOf x :: res.2)

/-- The sessions gathered by `TmuxDeployment._stop_model_server` before
deduplication: the by-version query (labels) concatenated with the by-stage
query (session-name prefix `session_name_general`). -/
def tmuxStopQuery (st : List TSession) (s : TSelf)
    (findVersion findStage : Bool) : List TSession :=
  (if findVersion then sessionsByNameVersion st s.name s.version else [])
    ++ (if findStage then sessionsByNameStart st s.session_name_general else [])

/-- `TmuxDeployment._stop_model_server` (lines 228-272). -/
def tmuxStopModelServer (st : List TSession) (s : TSelf)
    (findVersion findStage kill : Bool) (exclude : String) :
    List TSession × List StoppedRec :=
  tmuxStopIter kill exclude
    (distinct (fun x => x.sname) (tmuxStopQuery st s findVersion findStage)) st

/-- Python-level failures of the tmux flow. -/
inductive PyError where
  | http (e : HTTPError)
  | attrError (attr : String)
  | libTmux (msg : String)
deriving Repr, DecidableEq

/-- Embeds the `existing_sessions` branch of
`TmuxDeployment._start_model_server` (lines 177-185).  `deploy_model` passes
the `stopped_sessions` list returned by `_stop_model_server`, whose elements
are plain `dict`s; the loop body immediately calls
`_launch_gunicorn_in_session(existing_session, …)`, whose first statement
`session.attached_pane` raises `AttributeError` on a `dict`.  On an empty
list the loop is skipped and `LibTmuxException` is raised only when
`raise_error` is set. -/
def tmuxStartExisting (recs : List StoppedRec) (raiseError : Bool) :
    Except PyError Unit :=
  match recs with
  | [] =>
    if raiseError then .error (.libTmux "Old Sessions could not be found.")
    else .ok ()
  | _ :: _ => .error (.attrError "attached_pane")

/-- The fresh-start branch of `TmuxDeployment._start_model_server` (lines
187-196) followed by `_launch_gunicorn_in_session` (lines 198-226): create
the session, set the environment variables `model_name`, `model_version`,
`model_stage`, `model_conda_prefix` and `args` (no `model_port` and no
`model_workers` are set), launch gunicorn and probe
`_is_service_healthy(port, 20)`; when the probe fails, capture the pane,
kill the new session and raise the 500 `HTTPException` carrying the capture.
The probe outcome and the pane capture are oracle parameters. -/
def tmuxStartNew (st : List TSession) (s : TSelf) (port : Nat)
    (healthOk : Bool) (paneCapture : String) :
    Except PyError Unit × List TSession :=
  let sess : TSession :=
    { sname := s.session_name, mname := s.name, mversion := s.version,
      mstage := s.stage, mport := none, mworkers := none,
      condaPrefix := s.condaPrefix, argsPort := port, serving := true }
  let st1 := sess :: st
  if healthOk then (.ok (), st1)
  else
    (.error (.http ⟨500, "Could not deploy service.\n" ++ paneCapture⟩),
      killSessionNamed st1 s.session_name)

/-- `TmuxDeployment.deploy_model` (lines 45-85): create the conda
environment (`_create_env_from_model`, whose only failure check is
`returncode < 0`); stop (without killing) the sessions found **by version**;
if the port is in use, try to restart the stopped sessions and raise the
502; otherwise start the new session inside `try`, then kill everything
found by stage or version except the new session; `except HTTPException`
tries to restart the stopped sessions before re-raising. -/
def tmuxDeploy (st : List TSession) (s : TSelf) (envReturncode : Int)
    (port : Nat) (portInUse : Bool) (healthOk : Bool) (paneCapture : String) :
    Except PyError String × List TSession :=
  match createEnvCheck envReturncode with
  | .error e => (.error (.http e), st)
  | .ok _ =>
    let r1 := tmuxStopModelServer st s true false false ""
    let st1 := r1.1
    let stopped := r1.2
    if portInUse then
      match tmuxStartExisting stopped false with
      | .error e => (.error e, st1)
      | .ok _ =>
        (.error (.http ⟨502, "Port " ++ toString port ++ " is already in use."⟩),
          st1)
    else
      match tmuxStartNew st1 s port healthOk paneCapture with
      | (.ok _, st2) =>
        let r2 := tmuxStopModelServer st2 s true true true s.session_name
        (.ok "Deployed model", r2.1)
      | (.error (.http e), st2) =>
        match tmuxStartExisting stopped false with
        | .error e2 => (.error e2, st2)
        | .ok _ => (.error (.http e), st2)
      | (.error e, st2) => (.error e, st2)

/-- `TmuxDeployment.undeploy_model` (lines 87-104): kill the sessions found
by version only; answer 404 when `stopped_sessions` is empty. -/
def tmuxUndeploy (st : List TSession) (s : TSelf) :
    Except PyError String × List TSession :=
  let r := tmuxStopModelServer st s true false true ""
  if r.2.length > 0 then (.ok "Successfully undeployed model", r.1)
  else
    (.error (.http ⟨404, "Model could not be undeployed: " ++ s.name ++ ", "
      ++ s.version⟩), r.1)

/-! ## Lemmas about the stop/remove loops -/

theorem dockerStopIter_stopped (rm : Bool) (ex : String) :
    ∀ (l st : List DockerContainer),
      (dockerStopIter rm ex l st).2.1
        = l.filter (fun c => ¬(c.cname = ex) ∧ c.running) := by
  intro l
  induction l with
  | nil => intro st; rfl
  | cons c rest ih =>
    intro st
    by_cases h : c.cname = ex
    · simp [dockerStopIter, h, ih]
    · by_cases hr : c.running
      · simp [dockerStopIter, h, hr, ih]
      · simp [dockerStopIter, h, hr, ih]

theorem dockerStopIter_removed (rm : Bool) (ex : String) :
    ∀ (l st : List DockerContainer),
      (dockerStopIter rm ex l st).2.2
        = if rm then l.filter (fun c => ¬(c.cname = ex)) else [] := by
  intro l
  induction l with
  | nil => intro st; cases rm <;> rfl
  | cons c rest ih =>
    intro st
    by_cases h : c.cname = ex
    · simp [dockerStopIter, h, ih]
    · cases rm <;> simp [dockerStopIter, h, ih]

theorem removeCid_stopCid (i : Nat) :
    ∀ (st : List DockerContainer), removeCid (stopCid st i) i = removeCid st i := by
  intro st
  induction st with
  | nil => rfl
  | cons c rest ih =>
    simp only [stopCid, removeCid, List.map_cons, List.filter_cons, ne_eq,
      decide_not] at *
    by_cases h : c.cid = i
    · simpa [h] using ih
    · simpa [h] using ih

theorem dockerStopIter_state_remove (ex : String) :
    ∀ (l st : List DockerContainer),
      (dockerStopIter true ex l st).1
        = st.filter (fun c =>
            c.cid ∉ (l.filter (fun d => ¬(d.cname = ex))).map (fun d => d.cid)) := by
  intro l
  induction l with
  | nil => intro st; simp [dockerStopIter]
  | cons c rest ih =>
    intro st
    by_cases h : c.cname = ex
    · simp [dockerStopIter, h, ih]
    · have hst2 : removeCid (if c.running = true then stopCid st c.cid else st) c.cid
          = removeCid st c.cid := by
        by_cases hr : c.running <;> simp [hr, removeCid_stopCid]
      have hstep : (dockerStopIter true ex (c :: rest) st).1
          = (dockerStopIter true ex rest (removeCid st c.cid)).1 := by
        simp [dockerStopIter, h, hst2]
      rw [hstep, ih, removeCid, List.filter_filter]
      have hc : (c :: rest).filter (fun d => decide ¬(d.cname = ex))
          = c :: rest.filter (fun d => decide ¬(d.cname = ex)) := by
        simp [h]
      rw [hc, List.map_cons]
      refine List.filter_congr ?_
      intro a _
      rw [Bool.eq_iff_iff]
      simp [List.mem_cons, not_or]
      tauto

theorem killSessionNamed_sendCtrlC (n : String) :
    ∀ (st : List TSession),
      killSessionNamed (sendCtrlC st n) n = killSessionNamed st n := by
  intro st
  induction st with
  | nil => rfl
  | cons x rest ih =>
    simp only [sendCtrlC, killSessionNamed, List.map_cons, List.filter_cons, ne_eq,
      decide_not] at *
    by_cases h : x.sname = n
    · simpa [h] using ih
    · simpa [h] using ih

theorem tmuxStopIter_recs (k : Bool) (ex : String) :
    ∀ (l st : List TSession),
      (tmuxStopIter k ex l st).2
        = (l.filter (fun x => ¬(x.sname = ex))).map recordOf := by
  intro l
  induction l with
  | nil => intro st; rfl
  | cons x rest ih =>
    intro st
    by_cases h : x.sname = ex
    · simp [tmuxStopIter, h, ih]
    · simp [tmuxStopIter, h, ih]

theorem tmuxStopIter_state_kill (ex : String) :
    ∀ (l st : List TSession),
      (tmuxStopIter true ex l st).1
        = st.filter (fun x =>
            x.sname ∉ (l.filter (fun y => ¬(y.sname = ex))).map (fun y => y.sname)) := by
  intro l
  induction l with
  | nil => intro st; simp [tmuxStopIter]
  | cons x rest ih =>
    intro st
    by_cases h : x.sname = ex
    · simp [tmuxStopIter, h, ih]
    · have hstep : (tmuxStopIter true ex (x :: rest) st).1
          = (tmuxStopIter true ex rest (killSessionNamed st x.sname)).1 := by
        simp [tmuxStopIter, h, killSessionNamed_sendCtrlC]
      rw [hstep, ih, killSessionNamed, List.filter_filter]
      have hc : (x :: rest).filter (fun y => decide ¬(y.sname = ex))
          = x :: rest.filter (fun y => decide ¬(y.sname = ex)) := by
        simp [h]
      rw [hc, List.map_cons]
      refine List.filter_congr ?_
      intro a _
      rw [Bool.eq_iff_iff]
      simp [List.mem_cons, not_or]
      tauto

/-! ## Query and deduplication auxiliaries -/

theorem mem_containersByVersion {st : List DockerContainer} {n v : String}
    {c : DockerContainer} :
    c ∈ containersByVersion st n v ↔ c ∈ st ∧ c.lname = n ∧ c.lversion = v := by
  simp [containersByVersion, List.mem_filter]

theorem mem_containersByStage {st : List DockerContainer} {n g : String}
    {c : DockerContainer} :
    c ∈ containersByStage st n g ↔ c ∈ st ∧ c.lname = n ∧ c.lstage = g := by
  simp [containersByStage, List.mem_filter]

theorem mem_sessionsByNameVersion {st : List TSession} {n v : String}
    {x : TSession} :
    x ∈ sessionsByNameVersion st n v
      ↔ x ∈ st ∧ pyStartsWith x.sname "bentoml_" = true ∧ x.mname = n
          ∧ x.mversion = v ∧ sessionLabelsSet x = true := by
  simp [sessionsByNameVersion, List.mem_filter]

theorem dockerStopQuery_version (st : List DockerContainer) (s : DSelf) :
    dockerStopQuery st s true false = containersByVersion st s.name s.version := by
  simp [dockerStopQuery]

theorem tmuxStopQuery_version (st : List TSession) (s : TSelf) :
    tmuxStopQuery st s true false = sessionsByNameVersion st s.name s.version := by
  simp [tmuxStopQuery]

theorem distinct_cid_eq_of_nodup {st q : List DockerContainer}
    (hnd : (st.map (fun c => c.cid)).Nodup) (hq : q.Sublist st) :
    distinct (fun c => c.cid) q = q :=
  distinct_of_keys_nodup _ q (List.Nodup.sublist (hq.map _) hnd)

theorem distinct_sname_eq_of_nodup {st q : List TSession}
    (hnd : (st.map (fun x => x.sname)).Nodup) (hq : q.Sublist st) :
    distinct (fun x => x.sname) q = q :=
  distinct_of_keys_nodup _ q (List.Nodup.sublist (hq.map _) hnd)

/-! ## Lemmas about the probes -/

theorem sessionGetRetries_all_connErr (attempt : Nat → ProbeOutcome) :
    ∀ (b i : Nat), (∀ j, i ≤ j → j ≤ i + b → attempt j = .connErr) →
      sessionGetRetries attempt b i = .error () := by
  intro b
  induction b with
  | zero =>
    intro i h
    have h0 := h i le_rfl (by omega)
    simp [sessionGetRetries, h0]
  | succ b ih =>
    intro i h
    have h0 := h i le_rfl (by omega)
    simp only [sessionGetRetries, h0]
    exact ih (i + 1) (fun j hj1 hj2 => h j (by omega) (by omega))

theorem is_port_in_use_true_iff (bound : Nat → Bool) :
    ∀ (r i : Nat),
      is_port_in_use bound r i = true ↔ ∀ j, j < r → bound (i + j) = true := by
  intro r
  induction r with
  | zero => intro i; simp [is_port_in_use]
  | succ r ih =>
    intro i
    by_cases hb : bound i = true
    · rw [show is_port_in_use bound (r + 1) i = is_port_in_use bound r (i + 1) by
        simp [is_port_in_use, hb]]
      rw [ih (i + 1)]
      constructor
      · intro hall j hj
        cases j with
        | zero => simpa using hb
        | succ j =>
          have := hall j (by omega)
          have he : i + 1 + j = i + (j + 1) := by omega
          rwa [he] at this
      · intro hall j hj
        have := hall (j + 1) (by omega)
        have he : i + (j + 1) = i + 1 + j := by omega
        rwa [he] at this
    · rw [show is_port_in_use bound (r + 1) i = false by simp [is_port_in_use, hb]]
      constructor
      · intro hf; exact absurd hf (by simp)
      · intro hall
        exact absurd (by simpa using hall 0 (by omega)) hb

theorem port_check_attempts_le (bound : Nat → Bool) :
    ∀ (r i : Nat), port_check_attempts bound r i ≤ r := by
  intro r
  induction r with
  | zero => intro i; simp [port_check_attempts]
  | succ r ih =>
    intro i
    by_cases hb : bound i = true
    · have := ih (i + 1)
      simp only [port_check_attempts, hb, if_true]
      omega
    · simp [port_check_attempts, hb]

theorem port_check_early_exit (bound : Nat → Bool) :
    ∀ (k r i : Nat), k < r → bound (i + k) = false →
      (∀ j, j < k → bound (i + j) = true) →
      is_port_in_use bound r i = false ∧ port_check_attempts bound r i = k + 1 := by
  intro k
  induction k with
  | zero =>
    intro r i hk hf _
    cases r with
    | zero => omega
    | succ r =>
      have hb : bound i = false := by simpa using hf
      exact ⟨by simp [is_port_in_use, hb], by simp [port_check_attempts, hb]⟩
  | succ k ih =>
    intro r i hk hf hb
    cases r with
    | zero => omega
    | succ r =>
      have hb0 : bound i = true := by simpa using hb 0 (by omega)
      have hf1 : bound (i + 1 + k) = false := by
        have he : i + 1 + k = i + (k + 1) := by omega
        rw [he]; exact hf
      have hb1 : ∀ j, j < k → bound (i + 1 + j) = true := by
        intro j hj
        have he : i + 1 + j = i + (j + 1) := by omega
        rw [he]; exact hb (j + 1) (by omega)
      obtain ⟨h1, h2⟩ := ih r (i + 1) (by omega) hf1 hb1
      refine ⟨by simp [is_port_in_use, hb0, h1], ?_⟩
      simp only [port_check_attempts, hb0, if_true, h2]
      omega

/-! ## Concrete sample instances used by the closed theorems -/

def exC1 : DockerContainer :=
  { cid := 1, cname := "bentoml_m_staging_aaaa", lname := "m", lversion := "1",
    lstage := "Staging", largsPort := 5000, running := true, logs := "oldlogs" }

def exDSelf : DSelf :=
  { name := "m", version := "1", stage := "Staging",
    deployment_name := "bentoml_m_staging_bbbb", suffix := "bbbb" }

def exC2 : DockerContainer :=
  { cid := 3, cname := "bentoml_m_staging_cccc", lname := "m", lversion := "9",
    lstage := "Staging", largsPort := 5000, running := true, logs := "z" }

def exC4 : DockerContainer :=
  { cid := 4, cname := "bentoml_m_staging_dddd", lname := "m", lversion := "1",
    lstage := "Staging", largsPort := 5000, running := false, logs := "z" }

def exS1 : TSession :=
  { sname := "bentoml_m_staging_eeee", mname := "m", mversion := "1",
    mstage := "Staging", mport := some "5000", mworkers := some "2",
    condaPrefix := "/envs/e", argsPort := 5000, serving := true }

/-- A session exactly as this revision's `_start_model_server` creates it:
it matches `exTSelf` by name and version and its serving process is
running, but `model_port` and `model_workers` were never set, so
`get_running_models` skips it. -/
def exSInv : TSession :=
  { sname := "bentoml_m_staging_gggg", mname := "m", mversion := "1",
    mstage := "Staging", mport := none, mworkers := none,
    condaPrefix := "/envs/g", argsPort := 5000, serving := true }

def exTSelf : TSelf :=
  { name := "m", version := "1", stage := "Staging",
    session_name := "bentoml_m_staging_ffff",
    session_name_general := "bentoml_m_staging", condaPrefix := "/envs/f" }

/-! ## Claims -/

/-- C1: the claim states that whenever the new instance fails its health
check after old instances were stopped, both backends restart every stopped
instance before surfacing the log-carrying error.  The code does not: the
docker `deploy_model` has no `try`/`except` around `_start_model_server`, so
after a failed health check the 500 error (which does carry the captured
logs) propagates while the stopped old container stays stopped; the tmux
`except HTTPException` handler passes the stopped-session `dict`s to the
restart path, whose `session.attached_pane` access raises `AttributeError`,
so the old session stays stopped and the surfaced error is the
`AttributeError`, not the log-carrying `HTTPException`. -/
theorem C1_health_failure_rollback :
    exC1.running = true
    ∧ dockerDeploy [exC1] exDSelf 5000 false 2 false "faillogs"
        = (.error ⟨500, "Could not deploy service.\nfaillogs"⟩,
            [{ exC1 with running := false }])
    ∧ exS1.serving = true
    ∧ tmuxDeploy [exS1] exTSelf 0 5000 false false "capture"
        = (.error (.attrError "attached_pane"), [{ exS1 with serving := false }]) := by
  refine ⟨rfl, rfl, rfl, rfl⟩

/-- C2 counterexample: `exC2` matches `exDSelf` by stage only (same name and
stage, different version) and is running; the stop-old call of the docker
`deploy_model` (`find_by=['version', 'stage']`, `remove_container=False`)
stops it, and after a deploy whose health check fails the container is left
stopped — so the stop-old step does stop an instance solely because it
matches by stage. -/
theorem C2_counterexample :
    (¬(exC2.lversion = exDSelf.version)) ∧ exC2.lname = exDSelf.name
    ∧ exC2.lstage = exDSelf.stage ∧ exC2.running = true
    ∧ (dockerStopModelServer [exC2] exDSelf true true false "").2.1 = [exC2]
    ∧ (dockerDeploy [exC2] exDSelf 5000 false 2 false "x").2
        = [{ exC2 with running := false }] := by
  refine ⟨by decide, rfl, rfl, rfl, by decide, by decide⟩

/-- C2 (amended): the stop-old step executed before starting the new
instance stops without removing; in the tmux backend it stops only sessions
matching by version (same name and version), while in the docker backend it
stops containers matching by version or by stage (`find_by=['version',
'stage']`), so a docker container can be stopped solely because its stage
matches. -/
theorem C2_stop_old_matching :
    (∀ (st : List TSession) (s : TSelf) (r : StoppedRec),
      r ∈ (tmuxStopModelServer st s true false false "").2 →
      ∃ x ∈ st, x.mname = s.name ∧ x.mversion = s.version ∧ r = recordOf x)
    ∧ (∀ (st : List DockerContainer) (s : DSelf) (c : DockerContainer),
      c ∈ (dockerStopModelServer st s true true false "").2.1 →
      c ∈ st ∧ c.lname = s.name
        ∧ (c.lversion = s.version ∨ c.lstage = s.stage) ∧ c.running = true) := by
  constructor
  · intro st s r hr
    rw [tmuxStopModelServer, tmuxStopIter_recs] at hr
    obtain ⟨x, hx, hrx⟩ := List.mem_map.mp hr
    have hx1 : x ∈ distinct (fun x => x.sname) (tmuxStopQuery st s true false) :=
      (List.mem_filter.mp hx).1
    have hx2 := (distinct_sublist _ _).subset hx1
    rw [tmuxStopQuery_version] at hx2
    have hx3 := mem_sessionsByNameVersion.mp hx2
    exact ⟨x, hx3.1, hx3.2.2.1, hx3.2.2.2.1, hrx.symm⟩
  · intro st s c hc
    rw [dockerStopModelServer, dockerStopIter_stopped] at hc
    have hc1 := List.mem_filter.mp hc
    have hrun : c.running = true := by
      have := hc1.2
      simp only [decide_eq_true_eq] at this
      exact this.2
    have hc2 := (distinct_sublist _ _).subset hc1.1
    rw [dockerStopQuery] at hc2
    simp only [if_true, if_pos] at hc2
    rcases List.mem_append.mp hc2 with hm | hm
    · have := mem_containersByVersion.mp hm
      exact ⟨this.1, this.2.1, Or.inl this.2.2, hrun⟩
    · have := mem_containersByStage.mp hm
      exact ⟨this.1, this.2.1, Or.inr this.2.2, hrun⟩

theorem C2_stop_old_matching_witness :
    ∃ x ∈ [exS1], x.mname = exTSelf.name ∧ x.mversion = exTSelf.version
      ∧ recordOf exS1 = recordOf x :=
  C2_stop_old_matching.1 [exS1] exTSelf (recordOf exS1) (List.mem_cons_self _ _)

/-- C5: the claim states that a failed port check aborts the deploy before
the new instance starts, restarts everything just stopped and surfaces a
502 "port in use" error for both backends.  The docker backend does exactly
that, and so does the tmux backend when nothing had to be stopped; but when
the tmux stop-old step stopped at least one session, the restart loop
receives the stopped-session `dict`s and `session.attached_pane` raises
`AttributeError`: the session stays stopped and the 502 is never raised. -/
theorem C5_port_in_use :
    dockerDeploy [exC1] exDSelf 5000 true 2 true "x"
        = (.error ⟨502, "Port 5000 is already in use."⟩, [exC1])
    ∧ tmuxDeploy [] exTSelf 0 5000 true true "x"
        = (.error (.http ⟨502, "Port 5000 is already in use."⟩), [])
    ∧ tmuxDeploy [exS1] exTSelf 0 5000 true true "x"
        = (.error (.attrError "attached_pane"), [{ exS1 with serving := false }]) := by
  refine ⟨rfl, rfl, rfl⟩

/-- C3: `_distinct` returns a sublist (so input order is preserved) whose
identity keys are pairwise distinct, keeping exactly the first occurrence of
each identity; an instance appearing in both the by-version and the
by-stage query results occurs exactly once in the deduplicated list; and
the stop/remove actions of both backends' `_stop_model_server` iterate only
over that deduplicated list (their stopped/removed outputs are filters of
it). -/
theorem C3_distinct_dedup :
    (∀ (q1 q2 : List DockerContainer),
      (distinct (fun c => c.cid) (q1 ++ q2)).Sublist (q1 ++ q2)
      ∧ ((distinct (fun c => c.cid) (q1 ++ q2)).map (fun c => c.cid)).Nodup
      ∧ (∀ y, y ∈ distinct (fun c => c.cid) (q1 ++ q2) →
          (q1 ++ q2).find? (fun z => decide (z.cid = y.cid)) = some y)
      ∧ (∀ c, c ∈ q1 → c ∈ q2 →
          ((distinct (fun c => c.cid) (q1 ++ q2)).map (fun c => c.cid)).count c.cid
            = 1))
    ∧ (∀ (st : List DockerContainer) (s : DSelf) (fv fs rm : Bool) (ex : String),
      (dockerStopModelServer st s fv fs rm ex).2.1
        = (distinct (fun c => c.cid) (dockerStopQuery st s fv fs)).filter
            (fun c => ¬(c.cname = ex) ∧ c.running)
      ∧ (dockerStopModelServer st s fv fs rm ex).2.2
        = (if rm then (distinct (fun c => c.cid) (dockerStopQuery st s fv fs)).filter
            (fun c => ¬(c.cname = ex)) else []))
    ∧ (∀ (st : List TSession) (s : TSelf) (fv fs k : Bool) (ex : String),
      (tmuxStopModelServer st s fv fs k ex).2
        = ((distinct (fun x => x.sname) (tmuxStopQuery st s fv fs)).filter
            (fun x => ¬(x.sname = ex))).map recordOf) := by
  refine ⟨?_, ?_, ?_⟩
  · intro q1 q2
    refine ⟨distinct_sublist _ _, distinct_keys_nodup _ _, ?_, ?_⟩
    · intro y hy
      exact (distinct_mem_iff (fun c => c.cid) (q1 ++ q2) y).mp hy
    · intro c hc1 hc2
      obtain ⟨y, hy, hky⟩ :=
        distinct_key_surj (fun c => c.cid) (q1 ++ q2) c
          (List.mem_append.mpr (Or.inl hc1))
      have hmem : c.cid ∈ (distinct (fun c => c.cid) (q1 ++ q2)).map (fun c => c.cid) :=
        List.mem_map.mpr ⟨y, hy, hky⟩
      exact List.count_eq_one_of_mem (distinct_keys_nodup _ _) hmem
  · intro st s fv fs rm ex
    exact ⟨dockerStopIter_stopped rm ex _ st, dockerStopIter_removed rm ex _ st⟩
  · intro st s fv fs k ex
    exact tmuxStopIter_recs k ex _ st

theorem C3_distinct_dedup_witness :
    ((distinct (fun c => c.cid) ([exC1] ++ [exC1])).map (fun c => c.cid)).count
      exC1.cid = 1 :=
  ((C3_distinct_dedup.1 [exC1] [exC1]).2.2.2) exC1 (List.mem_cons_self _ _)
    (List.mem_cons_self _ _)

/-- C4 counterexample.  Docker: `exC4` matches `exDSelf` by version (same
name and version) but its status is not `'running'`; `undeploy_model`
removes it, yet — because `stopped_containers` stays empty — it raises the
404 even though one instance matched.  Tmux: `exSInv` is a running session
exactly as this revision's `_start_model_server` creates it (no
`model_port`/`model_workers` set); it matches `exTSelf` by name and
version, yet `undeploy_model` raises the 404 and the session keeps running
untouched, because `get_running_models`' five-variable gate skips it. -/
theorem C4_counterexample :
    (containersByVersion [exC4] exDSelf.name exDSelf.version).length = 1
    ∧ dockerUndeploy [exC4] exDSelf
        = (.error ⟨404, "Model could not be undeployed: m, 1"⟩, [])
    ∧ exSInv.mname = exTSelf.name ∧ exSInv.mversion = exTSelf.version
    ∧ exSInv.serving = true
    ∧ tmuxUndeploy [exSInv] exTSelf
        = (.error (.http ⟨404, "Model could not be undeployed: m, 1"⟩), [exSInv]) := by
  exact ⟨rfl, rfl, rfl, rfl, rfl, rfl⟩

/-- C4 (amended): both backends' `undeploy_model` stop and remove only
instances matching by version (same name and version, never by stage
alone), and a second undeploy of the same name and version raises 404.  The
docker backend raises 404 exactly when zero matching containers were in the
`'running'` state — a matching container that is not running is still
removed while the request reports 404.  The tmux backend stops and kills
only sessions that match by version **and** pass `get_running_models`'
five-variable existence gate, and raises 404 exactly when zero such
sessions exist; since `_start_model_server` never sets
`model_port`/`model_workers`, the sessions this revision creates all fail
the gate, so undeploying a state consisting of them always raises 404 and
leaves the state untouched.  Stated under the realistic assumptions that
container ids / session names are unique and instance names are
nonempty. -/
theorem C4_undeploy :
    (∀ (st : List DockerContainer) (s : DSelf),
      (st.map (fun c => c.cid)).Nodup → (∀ c ∈ st, ¬(c.cname = "")) →
      ((dockerUndeploy st s).2
          = st.filter (fun c => ¬(c.lname = s.name ∧ c.lversion = s.version))
        ∧ ((dockerUndeploy st s).1
            = .error ⟨404, "Model could not be undeployed: " ++ s.name ++ ", "
                ++ s.version⟩
          ↔ ¬ ∃ c ∈ st, c.lname = s.name ∧ c.lversion = s.version
              ∧ c.running = true)
        ∧ (dockerUndeploy (dockerUndeploy st s).2 s).1
            = .error ⟨404, "Model could not be undeployed: " ++ s.name ++ ", "
                ++ s.version⟩))
    ∧ (∀ (st : List TSession) (s : TSelf),
      (st.map (fun x => x.sname)).Nodup → (∀ x ∈ st, ¬(x.sname = "")) →
      ((tmuxUndeploy st s).2
          = st.filter (fun x => ¬(pyStartsWith x.sname "bentoml_" = true
              ∧ x.mname = s.name ∧ x.mversion = s.version
              ∧ sessionLabelsSet x = true))
        ∧ ((tmuxUndeploy st s).1
            = .error (.http ⟨404, "Model could not be undeployed: " ++ s.name
                ++ ", " ++ s.version⟩)
          ↔ ¬ ∃ x ∈ st, pyStartsWith x.sname "bentoml_" = true
              ∧ x.mname = s.name ∧ x.mversion = s.version
              ∧ sessionLabelsSet x = true)
        ∧ (tmuxUndeploy (tmuxUndeploy st s).2 s).1
            = .error (.http ⟨404, "Model could not be undeployed: " ++ s.name
                ++ ", " ++ s.version⟩)
        ∧ ((∀ x ∈ st, x.mport = none) →
            (tmuxUndeploy st s).1
              = .error (.http ⟨404, "Model could not be undeployed: " ++ s.name
                  ++ ", " ++ s.version⟩)
            ∧ (tmuxUndeploy st s).2 = st))) := by
  constructor
  · intro st s hnd hne
    have hq : dockerStopQuery st s true false = containersByVersion st s.name s.version :=
      dockerStopQuery_version st s
    have hqsub : (containersByVersion st s.name s.version).Sublist st :=
      List.filter_sublist st
    have hdq : distinct (fun c => c.cid) (containersByVersion st s.name s.version)
        = containersByVersion st s.name s.version :=
      distinct_cid_eq_of_nodup hnd hqsub
    have hstopped : (dockerStopModelServer st s true false true "").2.1
        = (containersByVersion st s.name s.version).filter (fun c => c.running) := by
      rw [dockerStopModelServer, hq, hdq, dockerStopIter_stopped]
      refine List.filter_congr ?_
      intro c hc
      have hcn := hne c (hqsub.subset hc)
      rw [Bool.eq_iff_iff]
      simp [hcn]
    have hstate : (dockerStopModelServer st s true false true "").1
        = st.filter (fun c => ¬(c.lname = s.name ∧ c.lversion = s.version)) := by
      rw [dockerStopModelServer, hq, hdq, dockerStopIter_state_remove]
      have hq2 : (containersByVersion st s.name s.version).filter
          (fun d => ¬(d.cname = "")) = containersByVersion st s.name s.version := by
        rw [List.filter_eq_self]
        intro c hc
        simpa using hne c (hqsub.subset hc)
      rw [hq2]
      refine List.filter_congr ?_
      intro c hc
      rw [Bool.eq_iff_iff]
      simp only [decide_eq_true_eq, List.mem_map]
      constructor
      · intro hnm hmatch
        exact hnm ⟨c, mem_containersByVersion.mpr ⟨hc, hmatch.1, hmatch.2⟩, rfl⟩
      · rintro hnm ⟨d, hdq1, hdc⟩
        have hd := mem_containersByVersion.mp hdq1
        have hde : d = c := List.inj_on_of_nodup_map hnd hd.1 hc hdc
        exact hnm ⟨hde ▸ hd.2.1, hde ▸ hd.2.2⟩
    have hiff : 0 < ((containersByVersion st s.name s.version).filter
          (fun c => c.running)).length
        ↔ ∃ c ∈ st, c.lname = s.name ∧ c.lversion = s.version ∧ c.running = true := by
      rw [List.length_pos]
      constructor
      · intro hne0
        obtain ⟨c, hc⟩ := List.exists_mem_of_ne_nil _ hne0
        have hc1 := List.mem_filter.mp hc
        have hc2 := mem_containersByVersion.mp hc1.1
        exact ⟨c, hc2.1, hc2.2.1, hc2.2.2, by simpa using hc1.2⟩
      · rintro ⟨c, hcst, hn, hv, hr⟩ hnil
        rw [List.filter_eq_nil_iff] at hnil
        exact hnil c (mem_containersByVersion.mpr ⟨hcst, hn, hv⟩) (by simpa using hr)
    have h1 : (dockerUndeploy st s).2
        = st.filter (fun c => ¬(c.lname = s.name ∧ c.lversion = s.version)) := by
      by_cases hl : 0 < (dockerStopModelServer st s true false true "").2.1.length
      · simp [dockerUndeploy, hl, hstate]
      · simp [dockerUndeploy, hl, hstate]
    refine ⟨h1, ?_, ?_⟩
    · constructor
      · intro herr hex
        have hl : 0 < (dockerStopModelServer st s true false true "").2.1.length := by
          rw [hstopped]; exact hiff.mpr hex
        rw [dockerUndeploy] at herr
        simp only [hl, if_pos] at herr
        exact absurd herr (by simp)
      · intro hnex
        have hl : ¬ 0 < (dockerStopModelServer st s true false true "").2.1.length := by
          rw [hstopped]
          intro hl
          exact hnex (hiff.mp hl)
        simp [dockerUndeploy, hl]
    · have hund : ∀ (st0 : List DockerContainer),
          containersByVersion st0 s.name s.version = [] →
          (dockerUndeploy st0 s).1
            = .error ⟨404, "Model could not be undeployed: " ++ s.name ++ ", "
                ++ s.version⟩ := by
        intro st0 h0
        simp [dockerUndeploy, dockerStopModelServer, dockerStopQuery, h0, distinct,
          distinctLoop, dockerStopIter]
      apply hund
      rw [h1, containersByVersion, List.filter_filter, List.filter_eq_nil_iff]
      intro c _
      simp only [Bool.and_eq_true, decide_eq_true_eq, not_and]
      intro h
      tauto
  · intro st s hnd hne
    have hq : tmuxStopQuery st s true false = sessionsByNameVersion st s.name s.version :=
      tmuxStopQuery_version st s
    have hqsub : (sessionsByNameVersion st s.name s.version).Sublist st :=
      List.filter_sublist st
    have hdq : distinct (fun x => x.sname) (sessionsByNameVersion st s.name s.version)
        = sessionsByNameVersion st s.name s.version :=
      distinct_sname_eq_of_nodup hnd hqsub
    have hrecs : (tmuxStopModelServer st s true false true "").2
        = (sessionsByNameVersion st s.name s.version).map recordOf := by
      rw [tmuxStopModelServer, hq, hdq, tmuxStopIter_recs]
      have hq2 : (sessionsByNameVersion st s.name s.version).filter
          (fun x => ¬(x.sname = "")) = sessionsByNameVersion st s.name s.version := by
        rw [List.filter_eq_self]
        intro x hx
        simpa using hne x (hqsub.subset hx)
      rw [hq2]
    have hstate : (tmuxStopModelServer st s true false true "").1
        = st.filter (fun x => ¬(pyStartsWith x.sname "bentoml_" = true
            ∧ x.mname = s.name ∧ x.mversion = s.version
            ∧ sessionLabelsSet x = true)) := by
      rw [tmuxStopModelServer, hq, hdq, tmuxStopIter_state_kill]
      have hq2 : (sessionsByNameVersion st s.name s.version).filter
          (fun y => ¬(y.sname = "")) = sessionsByNameVersion st s.name s.version := by
        rw [List.filter_eq_self]
        intro x hx
        simpa using hne x (hqsub.subset hx)
      rw [hq2]
      refine List.filter_congr ?_
      intro x hx
      rw [Bool.eq_iff_iff]
      simp only [decide_eq_true_eq, List.mem_map]
      constructor
      · intro hnm hmatch
        exact hnm ⟨x, mem_sessionsByNameVersion.mpr
          ⟨hx, hmatch.1, hmatch.2.1, hmatch.2.2.1, hmatch.2.2.2⟩, rfl⟩
      · rintro hnm ⟨y, hyq, hyx⟩
        have hy := mem_sessionsByNameVersion.mp hyq
        have hye : y = x := List.inj_on_of_nodup_map hnd hy.1 hx hyx
        exact hnm ⟨hye ▸ hy.2.1, hye ▸ hy.2.2.1, hye ▸ hy.2.2.2.1,
          hye ▸ hy.2.2.2.2⟩
    have hiff : 0 < (sessionsByNameVersion st s.name s.version).length
        ↔ ∃ x ∈ st, pyStartsWith x.sname "bentoml_" = true
            ∧ x.mname = s.name ∧ x.mversion = s.version
            ∧ sessionLabelsSet x = true := by
      rw [List.length_pos]
      constructor
      · intro hne0
        obtain ⟨x, hx⟩ := List.exists_mem_of_ne_nil _ hne0
        have hx1 := mem_sessionsByNameVersion.mp hx
        exact ⟨x, hx1.1, hx1.2.1, hx1.2.2.1, hx1.2.2.2.1, hx1.2.2.2.2⟩
      · rintro ⟨x, hxst, hpre, hn, hv, hg⟩ hnil
        have : x ∈ ([] : List TSession) :=
          hnil ▸ mem_sessionsByNameVersion.mpr ⟨hxst, hpre, hn, hv, hg⟩
        simp at this
    have hlen : (tmuxStopModelServer st s true false true "").2.length
        = (sessionsByNameVersion st s.name s.version).length := by
      rw [hrecs, List.length_map]
    have h1 : (tmuxUndeploy st s).2
        = st.filter (fun x => ¬(pyStartsWith x.sname "bentoml_" = true
            ∧ x.mname = s.name ∧ x.mversion = s.version
            ∧ sessionLabelsSet x = true)) := by
      by_cases hl : 0 < (tmuxStopModelServer st s true false true "").2.length
      · simp [tmuxUndeploy, hl, hstate]
      · simp [tmuxUndeploy, hl, hstate]
    refine ⟨h1, ?_, ?_, ?_⟩
    · constructor
      · intro herr hex
        have hl : 0 < (tmuxStopModelServer st s true false true "").2.length := by
          rw [hlen]; exact hiff.mpr hex
        rw [tmuxUndeploy] at herr
        simp only [hl, if_pos] at herr
        exact absurd herr (by simp)
      · intro hnex
        have hl : ¬ 0 < (tmuxStopModelServer st s true false true "").2.length := by
          rw [hlen]
          intro hl
          exact hnex (hiff.mp hl)
        simp [tmuxUndeploy, hl]
    · have hund : ∀ (st0 : List TSession),
          sessionsByNameVersion st0 s.name s.version = [] →
          (tmuxUndeploy st0 s).1
            = .error (.http ⟨404, "Model could not be undeployed: " ++ s.name
                ++ ", " ++ s.version⟩) := by
        intro st0 h0
        simp [tmuxUndeploy, tmuxStopModelServer, tmuxStopQuery, h0, distinct,
          distinctLoop, tmuxStopIter]
      apply hund
      rw [h1, sessionsByNameVersion, List.filter_filter, List.filter_eq_nil_iff]
      intro x _
      simp only [Bool.and_eq_true, decide_eq_true_eq, not_and]
      intro h
      tauto
    · intro hnone
      have hq0 : sessionsByNameVersion st s.name s.version = [] := by
        rw [sessionsByNameVersion, List.filter_eq_nil_iff]
        intro x hx
        have h0 := hnone x hx
        simp [sessionLabelsSet, pyTruthy, h0]
      have hstop0 : tmuxStopModelServer st s true false true "" = (st, []) := by
        rw [tmuxStopModelServer, hq, hq0]
        rfl
      exact ⟨by simp [tmuxUndeploy, hstop0], by simp [tmuxUndeploy, hstop0]⟩

theorem C4_undeploy_witness :
    (dockerUndeploy [exC1] exDSelf).2
      = [exC1].filter (fun c => ¬(c.lname = exDSelf.name
          ∧ c.lversion = exDSelf.version)) :=
  (C4_undeploy.1 [exC1] exDSelf (by decide) (by decide)).1

/-- C6: the derived identity equals the spec's construction.  The cleaned
name and stage are the raw strings with all non-word characters removed and
then lowercased; the generated session/deployment name is the fixed prefix
`'bentoml'`, the cleaned name, the cleaned stage and the suffix joined by
underscores; and a generated suffix has exactly 8 characters, all drawn
from the lowercase letters and digits. -/
theorem C6_identity (name stage sfx : String) (rng : Nat → Nat) :
    tmuxSessionName name stage sfx
        = specDeploymentName "bentoml" (specCleanName name) (specCleanName stage) sfx
    ∧ baseDeploymentName "bentoml" name stage none rng
        = specDeploymentName "bentoml" (specCleanName name) (specCleanName stage)
            (randomSuffix rng)
    ∧ baseDeploymentName "bentoml" name stage (some sfx) rng
        = specDeploymentName "bentoml" (specCleanName name) (specCleanName stage) sfx
    ∧ (randomSuffix rng).length = 8
    ∧ (∀ c, c ∈ (randomSuffix rng).data → c ∈ suffixAlphabet) := by
  have hb : ("bentoml_" : String) = "bentoml" ++ "_" := by decide
  refine ⟨?_, rfl, rfl, rfl, ?_⟩
  · rw [tmuxSessionName, specDeploymentName, hb]
    rfl
  · intro c hc
    obtain ⟨i, _, hci⟩ := List.mem_map.mp hc
    have h36 : rng i % 36 < 36 := Nat.mod_lt _ (by omega)
    have hmem : ∀ j, j < 36 → suffixAlphabet.getD j 'a' ∈ suffixAlphabet := by decide
    rw [← hci]
    exact hmem _ h36

theorem C6_identity_witness :
    (randomSuffix (fun i => i * 7)).length = 8 :=
  (C6_identity "My Model" "Staging" "abc123zz" (fun i => i * 7)).2.2.2.1

/-- C7: the claim — and the method's own docstring — say environment
provisioning is fatal on any non-zero exit status of the provisioning
subprocess.  The code checks `response.returncode < 0`, so the ordinary
failure exit status 1 of `conda env create` raises nothing and the deploy
proceeds to start the serving process (here: with exit status 1 the deploy
runs to completion), while only a negative returncode (process killed by a
signal) raises the 500. -/
theorem C7_env_exit_check :
    createEnvCheck 1 = .ok ()
    ∧ ¬((1 : Int) = 0)
    ∧ createEnvCheck (-9) = .error ⟨500, "Could not create conda env."⟩
    ∧ (tmuxDeploy [] exTSelf 1 5000 false true "L").1 = .ok "Deployed model"
    ∧ (tmuxDeploy [] exTSelf (-9) 5000 false true "L").1
        = .error (.http ⟨500, "Could not create conda env."⟩) := by
  exact ⟨rfl, by decide, rfl, rfl, rfl⟩

/-- C8: `_is_service_healthy` is total and boolean for every port, retry
count and network behaviour — the `except` swallows every exception the
retrying `session.get` can raise — and it returns `true` exactly when the
probe obtains a response with status 200; exhausted retry budgets (the
`.error` outcome) and non-200 responses both yield `false`. -/
theorem C8_health_probe (attempt : Nat → ProbeOutcome) (retries : Nat) :
    (is_service_healthy attempt retries = true
      ↔ sessionGetRetries attempt retries 0 = .ok 200)
    ∧ ((∀ j, j ≤ retries → attempt j = .connErr)
        → is_service_healthy attempt retries = false)
    ∧ (∀ c, sessionGetRetries attempt retries 0 = .ok c → ¬(c = 200)
        → is_service_healthy attempt retries = false) := by
  refine ⟨?_, ?_, ?_⟩
  · cases h : sessionGetRetries attempt retries 0 with
    | ok c => simp [is_service_healthy, h]
    | error e => simp [is_service_healthy, h]
  · intro hall
    have h := sessionGetRetries_all_connErr attempt retries 0
      (fun j h1 h2 => hall j (by omega))
    simp [is_service_healthy, h]
  · intro c hc hne
    simp [is_service_healthy, hc, hne]

theorem C8_health_probe_witness :
    is_service_healthy (fun _ => ProbeOutcome.connErr) 2 = false :=
  (C8_health_probe (fun _ => ProbeOutcome.connErr) 2).2.1 (by decide)

/-- C9: the `start` endpoint updates the module-level `DEFAULT_ARGS` dict in
place and hands that same dict to `deploy_model`, so a key set by an earlier
request persists: when the next request omits the key, its effective
arguments carry the earlier request's value, not the original default
(`port` stays at a previously supplied 6000 instead of 5000).  The handler
is therefore not independent of earlier requests. -/
theorem C9_default_args_leak :
    (∀ (state reqArgs : ArgsDict) (k : String) (v : Nat),
      state.lookup k = some v → reqArgs.lookup k = none →
      (startHandlerArgs state (some reqArgs)).lookup k = some v)
    ∧ (startHandlerArgs (startHandlerArgs DEFAULT_ARGS_initial
        (some [("port", 6000)])) (some [])).lookup "port" = some 6000
    ∧ DEFAULT_ARGS_initial.lookup "port" = some 5000
    ∧ ¬((6000 : Nat) = 5000) := by
  refine ⟨?_, by decide, by decide, by decide⟩
  intro state reqArgs k v hs hr
  show (dictUpdate state reqArgs).lookup k = some v
  rw [lookup_dictUpdate, hr, lookup_filter_of_lookup_none state reqArgs k hr, hs]
  rfl

theorem C9_default_args_leak_witness :
    (startHandlerArgs [("port", 6000)] (some [("workers", 3)])).lookup "port"
      = some 6000 :=
  C9_default_args_leak.1 [("port", 6000)] [("workers", 3)] "port" 6000
    (by decide) (by decide)

/-- C10: `_is_port_in_use` always terminates with a boolean; it returns
`true` exactly when every one of the `retry` connection attempts finds the
port bound, it performs at most `retry` attempts, and as soon as an attempt
finds the port unbound it returns `false` immediately (after exactly that
attempt). -/
theorem C10_port_probe (bound : Nat → Bool) (retry : Nat) :
    (is_port_in_use bound retry 0 = true ↔ ∀ j, j < retry → bound j = true)
    ∧ port_check_attempts bound retry 0 ≤ retry
    ∧ (∀ k, k < retry → bound k = false → (∀ j, j < k → bound j = true)
        → is_port_in_use bound retry 0 = false
          ∧ port_check_attempts bound retry 0 = k + 1) := by
  refine ⟨?_, port_check_attempts_le bound retry 0, ?_⟩
  · have h := is_port_in_use_true_iff bound retry 0
    simpa using h
  · intro k hk hf hb
    have h := port_check_early_exit bound k retry 0 hk (by simpa using hf)
      (fun j hj => by simpa using hb j hj)
    simpa using h

theorem C10_port_probe_witness :
    is_port_in_use (fun i => decide (i < 2)) 4 0 = false
      ∧ port_check_attempts (fun i => decide (i < 2)) 4 0 = 2 + 1 :=
  (C10_port_probe (fun i => decide (i < 2)) 4).2.2 2 (by decide) (by decide)
    (by decide)

end Coordinator
